import Mathlib

/-!
Verification development for the GridPath temporal-vintage resolution and
dynamic component composition engine.  Python functions from the repository
are translated into executable Lean definitions (period labels, start years
and lifetimes become rationals; Pyomo sets become lists or finsets; fallible
Python code returns Except), and the specified properties are proved or
refuted about those definitions.
-/

set_option maxHeartbeats 1000000

namespace GridPath

/-- A project or transmission line is identified by its name string. -/
abbrev Project := String

namespace MassNewLin

/-- Embeds `operational_periods_by_new_build_transmission_vintage` from
`gridpath/transmission/capacity/capacity_types/mass_new_lin.py`: iterate over
`mod.PERIODS` and keep every period `p` with
`v <= p < v + mod.mass_new_lin_lifetime_yrs[g, v]`.  The comparison is on the
period labels themselves.  `lifetime_yrs` is the value
`mass_new_lin_lifetime_yrs[g, v]` for the vintage at hand. -/
def operational_periods_by_new_build_transmission_vintage
    (PERIODS : List ℚ) (v : ℚ) (lifetime_yrs : ℚ) : List ℚ :=
  PERIODS.filter (fun p => decide (v ≤ p ∧ p < v + lifetime_yrs))

/-- Stated from the words of the spec, for comparison with the code: the
periods whose start year lies in the right-open interval from
`start_year(v)` to `start_year(v) + L`. -/
def spec_operational_window
    (PERIODS : List ℚ) (start_year : ℚ → ℚ) (v L : ℚ) : List ℚ :=
  PERIODS.filter (fun p =>
    decide (start_year v ≤ start_year p ∧ start_year p < start_year v + L))

/-- Per-vintage contribution of `(g, p)` pairs, as a finset: the rows that the
vintage `(g, v)` contributes to `MASS_NEW_LIN_OPR_PRDS`.  `lt g v` is
`mass_new_lin_lifetime_yrs[g, v]`. -/
def vintage_contribution (PERIODS : List ℚ) (lt : Project → ℚ → ℚ)
    (g : Project) (v : ℚ) : Finset (Project × ℚ) :=
  ((operational_periods_by_new_build_transmission_vintage PERIODS v (lt g v)).map
    (fun p => (g, p))).toFinset

/-- Embeds `new_build_transmission_operational_periods` from mass_new_lin.py:
`list(set((g, p) for (g, v) in VNTS for p in OPR_PRDS_BY[g, v]))`; the Python
set becomes a `Finset`. -/
def new_build_transmission_operational_periods
    (PERIODS : List ℚ) (lt : Project → ℚ → ℚ) (VNTS : List (Project × ℚ)) :
    Finset (Project × ℚ) :=
  (VNTS.flatMap (fun gv =>
    (operational_periods_by_new_build_transmission_vintage PERIODS gv.2 (lt gv.1 gv.2)).map
      (fun p => (gv.1, p)))).toFinset

end MassNewLin

namespace CapacityTypes

/-- Modelled from the spec: `operational_periods_by_project_vintage` from
`gridpath/project/capacity/capacity_types/common_methods.py` is not under the
source tree (only its callers are).  Spec section 4.1: keep the periods whose
start year lies in the right-open interval from `start_year(vintage)` to
`start_year(vintage) + lifetime`.  The `period_end_year` argument is passed by
the callers but unused by the window test. -/
def operational_periods_by_project_vintage (periods : List ℚ)
    (period_start_year : ℚ → ℚ) (period_end_year : ℚ → ℚ)
    (vintage : ℚ) (lifetime_yrs : ℚ) : List ℚ :=
  periods.filter (fun p =>
    decide (period_start_year vintage ≤ period_start_year p ∧
      period_start_year p < period_start_year vintage + lifetime_yrs))

/-- Modelled from the spec: `project_operational_periods` from
common_methods.py is not under the source tree.  Union over the vintages of
the per-vintage operational periods, as a set of (project, period) pairs. -/
def project_operational_periods (project_vintages_set : List (Project × ℚ))
    (opr_prds_by_vintage : Project → ℚ → List ℚ) : Finset (Project × ℚ) :=
  (project_vintages_set.flatMap (fun gv =>
    (opr_prds_by_vintage gv.1 gv.2).map (fun p => (gv.1, p)))).toFinset

/-- The slice of the Pyomo model that
`gridpath/project/capacity/capacity_types/gen_ccs_new.py` reads: the periods
with their start and end years, the (project, vintage) build-decision set
`GEN_CCS_NEW_VNTS`, and the two lifetime params defined over it. -/
structure GenCcsNewModel where
  PERIODS : List ℚ
  period_start_year : ℚ → ℚ
  period_end_year : ℚ → ℚ
  GEN_CCS_NEW_VNTS : List (Project × ℚ)
  gen_ccs_new_gen_lifetime_yrs_by_vintage : Project → ℚ → ℚ
  gen_ccs_new_ccs_lifetime_yrs_by_vintage : Project → ℚ → ℚ

/-- Embeds `operational_periods_by_gen_vintage` from gen_ccs_new.py. -/
def operational_periods_by_gen_vintage (mod : GenCcsNewModel)
    (prj : Project) (v : ℚ) : List ℚ :=
  operational_periods_by_project_vintage mod.PERIODS mod.period_start_year
    mod.period_end_year v (mod.gen_ccs_new_gen_lifetime_yrs_by_vintage prj v)

/-- Embeds `operational_periods_by_ccs_vintage` from gen_ccs_new.py. -/
def operational_periods_by_ccs_vintage (mod : GenCcsNewModel)
    (prj : Project) (v : ℚ) : List ℚ :=
  operational_periods_by_project_vintage mod.PERIODS mod.period_start_year
    mod.period_end_year v (mod.gen_ccs_new_ccs_lifetime_yrs_by_vintage prj v)

/-- Embeds `gen_ccs_new_gen_operational_periods` from gen_ccs_new.py: the
relation `GEN_CCS_NEW_GEN_OPR_PRDS`. -/
def gen_ccs_new_gen_operational_periods (mod : GenCcsNewModel) :
    Finset (Project × ℚ) :=
  project_operational_periods mod.GEN_CCS_NEW_VNTS
    (operational_periods_by_gen_vintage mod)

/-- Embeds `gen_ccs_new_ccs_operational_periods` from gen_ccs_new.py: the
relation `GEN_CCS_NEW_CCS_OPR_PRDS`. -/
def gen_ccs_new_ccs_operational_periods (mod : GenCcsNewModel) :
    Finset (Project × ℚ) :=
  project_operational_periods mod.GEN_CCS_NEW_VNTS
    (operational_periods_by_ccs_vintage mod)

/-- The name that the dynamic-components step of
`gen_ccs_new.add_model_components` appends to
`capacity_type_operational_period_sets` (gen_ccs_new.py line 260). -/
def gen_ccs_new_registered_set_name : String := "GEN_CCS_NEW_VNTS"

/-- Embeds the dynamic-components step of `gen_ccs_new.add_model_components`:
the registry list after the append. -/
def gen_ccs_new_register (capacity_type_operational_period_sets : List String) :
    List String :=
  capacity_type_operational_period_sets ++ [gen_ccs_new_registered_set_name]

/-- Denotation of the two-dimensional set names of the gen_ccs_new module as
(project, period) relations on a model, mirroring `getattr(mod, name)`. -/
def gen_ccs_new_set_denotation (mod : GenCcsNewModel) (name : String) :
    Finset (Project × ℚ) :=
  if name = "GEN_CCS_NEW_VNTS" then mod.GEN_CCS_NEW_VNTS.toFinset
  else if name = "GEN_CCS_NEW_GEN_OPR_PRDS" then
    gen_ccs_new_gen_operational_periods mod
  else if name = "GEN_CCS_NEW_CCS_OPR_PRDS" then
    gen_ccs_new_ccs_operational_periods mod
  else ∅

/-- Concrete fixture: one project with a single 2020 vintage, lifetime 15,
periods 2020 and 2030 whose start years equal their labels. -/
def genCcsNewSample : GenCcsNewModel where
  PERIODS := [2020, 2030]
  period_start_year := fun p => p
  period_end_year := fun p => p + 10
  GEN_CCS_NEW_VNTS := [("GenCCS1", 2020)]
  gen_ccs_new_gen_lifetime_yrs_by_vintage := fun _ _ => 15
  gen_ccs_new_ccs_lifetime_yrs_by_vintage := fun _ _ => 15

/-- Modelled from the spec: `find_cross_duplicate` is the duplicate check of
the capacity aggregator (`gridpath/project/capacity/capacity.py`, not under
the source tree), which joins the registered capacity-type operational-period
contributions.  It returns a (project, period) pair claimed by two different
contributions, if any. -/
def find_cross_duplicate : List (List (Project × ℚ)) → Option (Project × ℚ)
  | [] => none
  | c :: rest =>
    match c.find? (fun pp => rest.any (fun c2 => decide (pp ∈ c2))) with
    | some pp => some pp
    | none => find_cross_duplicate rest

/-- Modelled from the spec: the capacity aggregator that unions the
registered contributions into `PRJ_OPR_PRDS` is not under the source tree;
per spec sections 4.2 and 7 a (project, period) pair claimed by two
contributions is a fatal build-time error identifying that pair, and
otherwise the duplicate-free union is returned. -/
def aggregate_operational_period_sets
    (contributions : List (List (Project × ℚ))) :
    Except (Project × ℚ) (Finset (Project × ℚ)) :=
  match find_cross_duplicate contributions with
  | some pp => Except.error pp
  | none => Except.ok (contributions.flatten.toFinset)

end CapacityTypes

namespace DrNew

/-- The slice of the Pyomo model that
`gridpath/project/capacity/capacity_types/dr_new.py` reads: the dr_new
projects, the periods, and the per-(project, period) build variable values. -/
structure Model where
  DR_NEW : Finset Project
  PERIODS : Finset ℚ
  DRNew_Build_MWh : Project → ℚ → ℚ

/-- Embeds `m.DR_NEW_OPR_PRDS = Set(dimen=2, ... m.DR_NEW*m.PERIODS)` from
dr_new.py: the full product of projects and periods. -/
def DR_NEW_OPR_PRDS (mod : Model) : Finset (Project × ℚ) :=
  mod.DR_NEW ×ˢ mod.PERIODS

/-- Embeds `dr_new_energy_capacity_rule` from dr_new.py: the sum of
`DRNew_Build_MWh[g, prev_p]` over `prev_p in mod.PERIODS if prev_p <= p`. -/
def dr_new_energy_capacity_rule (mod : Model) (g : Project) (p : ℚ) : ℚ :=
  Finset.sum (mod.PERIODS.filter (fun q => q ≤ p)) (mod.DRNew_Build_MWh g)

/-- Concrete fixture: one dr_new project over periods 2020 and 2030 with one
unit built in every period. -/
def drNewSample : Model where
  DR_NEW := {"DR1"}
  PERIODS := {2020, 2030}
  DRNew_Build_MWh := fun _ _ => 1

end DrNew

namespace StorH2

/-- Python run-time failures that the translated stor_H2 rules can surface:
a local variable read before assignment, or a Pyomo param accessed at an index
for which no value was loaded. -/
inductive PyErr where
  | unboundLocal (name : String)
  | missingParam (name : String)
  deriving DecidableEq, Repr

/-- Symbolic reference to a quantity used as previous-timepoint state in the
H2 tracking constraint: either a linked param persisted by the previous
subproblem, or a decision variable of the current subproblem. -/
inductive PrevRef where
  | linked_starting_param (s : Project) (idx : ℤ)
  | linked_discharge_param (s : Project) (idx : ℤ)
  | linked_charge_param (s : Project) (idx : ℤ)
  | starting_var (s : Project) (tmp : ℤ)
  | discharge_var (s : Project) (tmp : ℤ)
  | charge_var (s : Project) (tmp : ℤ)
  deriving DecidableEq, Repr

/-- The constraint built by `H2_tracking_rule`: the equation
`Stor_Starting_H2_in_Storage_MWh[s, tmp] = prev_starting
+ prev_charge * prev_hrs * prev_weight * charging_efficiency[s]
- prev_discharge * prev_hrs * prev_weight / discharging_efficiency[s]`,
recorded by its left-hand side index and the previous-state operands. -/
structure TrackingConstraint where
  s : Project
  tmp : ℤ
  prev_starting : PrevRef
  prev_discharge : PrevRef
  prev_charge : PrevRef
  prev_hrs_in_tmp : ℚ
  prev_weight : ℚ
  deriving DecidableEq, Repr

/-- The slice of the Pyomo model that the stor_H2 rules read.  The helpers
`check_if_first_timepoint` and `check_boundary_type`
(`gridpath/project/common_functions.py`, not under the source tree) are
modelled from the spec as attributes of the temporal input data: whether a
timepoint is the first of its balancing segment for a balancing type, and the
boundary type of that segment. -/
structure Model where
  balancing_type_project : Project → String
  is_first_tmp : ℤ → String → Bool
  boundary_type_of : ℤ → String → String
  hrs_in_tmp : ℤ → ℚ
  tmp_weight : ℤ → ℚ
  prev_tmp : ℤ → String → ℤ
  hrs_in_linked_tmp : ℤ → Option ℚ
  stor_linked_starting_H2_in_storage : Project → ℤ → Option ℚ
  stor_H2_linked_discharge : Project → ℤ → Option ℚ
  stor_H2_linked_charge : Project → ℤ → Option ℚ

/-- Embeds `H2_tracking_rule` from
`gridpath/project/operations/operational_types/stor_H2.py` (lines 366-423),
mirroring Python local-variable semantics.  First timepoint of a linear
segment: `Constraint.Skip`, returned as `ok none`.  First timepoint of a
linked segment: the branch reads `hrs_in_linked_tmp[0]` and the three linked
params (in source order, failing if a value is missing), assigns them to the
locals `prev_tmp_hrs_in_tmp`, `prev_tmp_starting_energy_in_storage`,
`prev_tmp_discharge` and `prev_tmp_charge`, but never assigns
`prev_tmp_weight`; the returned expression multiplies by `prev_tmp_weight`,
so the rule surfaces `UnboundLocalError` there.  Otherwise the previous-state
operands are the decision variables at `prev_tmp[tmp, balancing_type]`. -/
def H2_tracking_rule (mod : Model) (s : Project) (tmp : ℤ) :
    Except PyErr (Option TrackingConstraint) :=
  let bt := mod.balancing_type_project s
  if mod.is_first_tmp tmp bt ∧ mod.boundary_type_of tmp bt = "linear" then
    Except.ok none
  else if mod.is_first_tmp tmp bt ∧ mod.boundary_type_of tmp bt = "linked" then
    match mod.hrs_in_linked_tmp 0 with
    | none => Except.error (PyErr.missingParam "hrs_in_linked_tmp")
    | some _ =>
      match mod.stor_linked_starting_H2_in_storage s 0 with
      | none => Except.error (PyErr.missingParam "stor_linked_starting_H2_in_storage")
      | some _ =>
        match mod.stor_H2_linked_discharge s 0 with
        | none => Except.error (PyErr.missingParam "stor_H2_linked_discharge")
        | some _ =>
          match mod.stor_H2_linked_charge s 0 with
          | none => Except.error (PyErr.missingParam "stor_H2_linked_charge")
          | some _ => Except.error (PyErr.unboundLocal "prev_tmp_weight")
  else
    let pt := mod.prev_tmp tmp bt
    Except.ok (some
      { s := s
        tmp := tmp
        prev_starting := PrevRef.starting_var s pt
        prev_discharge := PrevRef.discharge_var s pt
        prev_charge := PrevRef.charge_var s pt
        prev_hrs_in_tmp := mod.hrs_in_tmp pt
        prev_weight := mod.tmp_weight pt })

/-- One row of the stor_H2 linked-timepoint parameter file: project, linked
timepoint index, starting H2 in storage, discharge, charge. -/
structure LinkedRow where
  project : Project
  linked_timepoint : ℤ
  linked_starting_H2_in_storage : ℚ
  linked_discharge : ℚ
  linked_charge : ℚ
  deriving DecidableEq, Repr

/-- The file name that `load_model_data` reads from the inputs directory of
the subproblem (stor_H2.py line 485). -/
def stor_H2_linked_inputs_filename : String := "stor_H2_linked_timepoint_params.tab"

/-- The three params that `load_model_data` loads from the linked file
(stor_H2.py lines 493-497). -/
def stor_H2_linked_loaded_params : List String :=
  ["stor_linked_starting_H2_in_storage", "stor_H2_linked_discharge",
    "stor_H2_linked_charge"]

/-- Embeds the linked-params section of `load_model_data` from stor_H2.py
(lines 483-499): if `stor_H2_linked_timepoint_params.tab` is present in the
inputs directory its rows are loaded into the three linked params, and if it
is absent the load is skipped (`else: pass`) leaving the model unchanged.
The inputs directory is modelled as a partial map from base file name to
parsed rows. -/
def load_model_data (inputs : String → Option (List LinkedRow)) (mod : Model) :
    Model :=
  match inputs stor_H2_linked_inputs_filename with
  | some rows =>
    { mod with
      stor_linked_starting_H2_in_storage := fun s i =>
        (rows.find? (fun r => decide (r.project = s ∧ r.linked_timepoint = i))).map
          (fun r => r.linked_starting_H2_in_storage)
      stor_H2_linked_discharge := fun s i =>
        (rows.find? (fun r => decide (r.project = s ∧ r.linked_timepoint = i))).map
          (fun r => r.linked_discharge)
      stor_H2_linked_charge := fun s i =>
        (rows.find? (fun r => decide (r.project = s ∧ r.linked_timepoint = i))).map
          (fun r => r.linked_charge) }
  | none => mod

/-- A delimited file written into the next-subproblem inputs directory by the
export step: base file name, header row, and data rows carrying a project, a
linked timepoint index and the value columns. -/
structure WrittenFile where
  name : String
  header : List String
  rows : List (Project × ℤ × List ℚ)
  deriving DecidableEq, Repr

/-- The model attributes that the linked-params section of
`stor_H2.export_results` reads.  They belong to the gen_H2 operational type,
not to stor_H2: the export code iterates `mod.GEN_H2_OPR_TMPS` and reads
`mod.Gen_H2_Charge_MW` and `mod.Gen_H2_MW`. -/
structure ExportEnv where
  GEN_H2_OPR_TMPS : List (Project × ℤ)
  Gen_H2_Charge_MW : Project → ℤ → ℚ
  Gen_H2_MW : Project → ℤ → ℚ

/-- Embeds the linked-params section of `export_results` from stor_H2.py
(lines 537-570): when `tmps_to_link` is empty nothing is written; otherwise a
file named `gen_H2_linked_timepoint_params.tab` is written into the inputs
directory of the next subproblem, with header
project, linked_timepoint, linked_charge, linked_H2 and one row per
`(p, tmp)` of `GEN_H2_OPR_TMPS` with `tmp` in `tmps_to_link`, keyed by
`tmp_linked_tmp_dict[tmp]` and clipped at zero.  (Python iterates the pairs
in sorted order; row order is not used by any property here.) -/
def export_linked_timepoint_params (env : ExportEnv) (tmps_to_link : List ℤ)
    (tmp_linked_tmp_dict : ℤ → ℤ) : Option WrittenFile :=
  if tmps_to_link.isEmpty then none
  else some
    { name := "gen_H2_linked_timepoint_params.tab"
      header := ["project", "linked_timepoint", "linked_charge", "linked_H2"]
      rows := (env.GEN_H2_OPR_TMPS.filter (fun pt => tmps_to_link.contains pt.2)).map
        (fun pt => (pt.1, tmp_linked_tmp_dict pt.2,
          [max (env.Gen_H2_Charge_MW pt.1 pt.2) 0, max (env.Gen_H2_MW pt.1 pt.2) 0])) }

/-- Concrete fixture: a single storage project on a daily balancing type whose
timepoint 1 is the first of a linked segment, with all linked params loaded
(values 1, 100, 20, 50). -/
def linkedFirstTmpModel : Model where
  balancing_type_project := fun _ => "day"
  is_first_tmp := fun tmp _ => tmp = 1
  boundary_type_of := fun _ _ => "linked"
  hrs_in_tmp := fun _ => 1
  tmp_weight := fun _ => 1
  prev_tmp := fun tmp _ => tmp - 1
  hrs_in_linked_tmp := fun _ => some 1
  stor_linked_starting_H2_in_storage := fun _ _ => some 100
  stor_H2_linked_discharge := fun _ _ => some 20
  stor_H2_linked_charge := fun _ _ => some 50

/-- Concrete fixture: as `linkedFirstTmpModel` but with boundary type linear
and no linked data. -/
def linearFirstTmpModel : Model where
  balancing_type_project := fun _ => "day"
  is_first_tmp := fun tmp _ => tmp = 1
  boundary_type_of := fun _ _ => "linear"
  hrs_in_tmp := fun _ => 1
  tmp_weight := fun _ => 1
  prev_tmp := fun tmp _ => tmp - 1
  hrs_in_linked_tmp := fun _ => none
  stor_linked_starting_H2_in_storage := fun _ _ => none
  stor_H2_linked_discharge := fun _ _ => none
  stor_H2_linked_charge := fun _ _ => none

/-- Concrete fixture: a linked-boundary first timepoint in a model whose
stor_H2 linked params were never loaded (the linked file is absent); the
temporal linked param `hrs_in_linked_tmp` is present. -/
def absentLinkedDataModel : Model where
  balancing_type_project := fun _ => "day"
  is_first_tmp := fun tmp _ => tmp = 1
  boundary_type_of := fun _ _ => "linked"
  hrs_in_tmp := fun _ => 1
  tmp_weight := fun _ => 1
  prev_tmp := fun tmp _ => tmp - 1
  hrs_in_linked_tmp := fun _ => some 1
  stor_linked_starting_H2_in_storage := fun _ _ => none
  stor_H2_linked_discharge := fun _ _ => none
  stor_H2_linked_charge := fun _ _ => none

/-- Concrete fixture: an inputs directory with no files at all. -/
def emptyInputs : String → Option (List LinkedRow) := fun _ => none

/-- Concrete fixture for the export step: one gen_H2 project at timepoint 24
with charge 50 and output 20. -/
def sampleExportEnv : ExportEnv where
  GEN_H2_OPR_TMPS := [("Stor1", 24)]
  Gen_H2_Charge_MW := fun _ _ => 50
  Gen_H2_MW := fun _ _ => 20

end StorH2

namespace CcsBalance

/-- The two registry keys of `gridpath/system/load_balance/ccs_balance.py`,
as a build-time dynamic-components record: the ordered lists of expression
names registered as production and as consumption components of the CCS
balance. -/
structure DynamicComponents where
  ccs_balance_production_components : List String
  ccs_balance_consumption_components : List String
  deriving DecidableEq, Repr

/-- Embeds `record_dynamic_components` from ccs_balance.py (lines 136-149):
appends `Unserved_CCS_Expression` to the production components and
`Over_CCS_Expression` to the consumption components. -/
def record_dynamic_components (d : DynamicComponents) : DynamicComponents where
  ccs_balance_production_components :=
    d.ccs_balance_production_components ++ ["Unserved_CCS_Expression"]
  ccs_balance_consumption_components :=
    d.ccs_balance_consumption_components ++ ["Over_CCS_Expression"]

/-- The slice of the Pyomo model that ccs_balance.py reads, over zone type
`Z` and timepoint type `T`: the violation-permission params, the penalty
variables, and the valuation of every expression registered by other
modules. -/
structure Model (Z T : Type) where
  allow_over_ccs : Z → ℚ
  allow_unserved_ccs : Z → ℚ
  Over_CCS : Z → T → ℚ
  Unserved_CCS : Z → T → ℚ
  component_expr : String → Z → T → ℚ

/-- Embeds `over_ccs_expression_rule` from ccs_balance.py. -/
def Over_CCS_Expression {Z T : Type} (m : Model Z T) (z : Z) (tmp : T) : ℚ :=
  m.allow_over_ccs z * m.Over_CCS z tmp

/-- Embeds `unserved_ccs_expression_rule` from ccs_balance.py. -/
def Unserved_CCS_Expression {Z T : Type} (m : Model Z T) (z : Z) (tmp : T) : ℚ :=
  m.allow_unserved_ccs z * m.Unserved_CCS z tmp

/-- Resolution `getattr(mod, component)[z, tmp]` of a registered expression
name on the model. -/
def resolve {Z T : Type} (m : Model Z T) (name : String) (z : Z) (tmp : T) : ℚ :=
  if name = "Unserved_CCS_Expression" then Unserved_CCS_Expression m z tmp
  else if name = "Over_CCS_Expression" then Over_CCS_Expression m z tmp
  else m.component_expr name z tmp

/-- Embeds `meet_ccs_rule` from ccs_balance.py (lines 111-133): the sum of
the registered production components at `(z, tmp)` equals the sum of the
registered consumption components at `(z, tmp)`. -/
def meet_ccs_rule {Z T : Type} (m : Model Z T) (d : DynamicComponents)
    (z : Z) (tmp : T) : Prop :=
  ((d.ccs_balance_production_components).map (fun c => resolve m c z tmp)).sum =
    ((d.ccs_balance_consumption_components).map (fun c => resolve m c z tmp)).sum

/-- Embeds the dynamic-components part of `add_model_components` from
ccs_balance.py: `record_dynamic_components(d)` runs first, then
`Meet_CCS_Constraint` is built from the updated registry.  Returns the
updated registry and the constraint relation. -/
def add_model_components {Z T : Type} (m : Model Z T) (d : DynamicComponents) :
    DynamicComponents × (Z → T → Prop) :=
  let d2 := record_dynamic_components d
  (d2, fun z tmp => meet_ccs_rule m d2 z tmp)

end CcsBalance

end GridPath

namespace GridPath

namespace MassNewLin

/-- C1 (counterexample): the code resolves the window by comparing period
labels, so as soon as a period label differs from its start year the resolved
window differs from the start-year window of the claim.  Periods labelled
2020 and 2021 with start years 2020 and 2025, vintage 2020, lifetime 3: the
code keeps both periods, the start-year rule keeps only the first. -/
theorem mass_new_lin_window_label_vs_start_year :
    operational_periods_by_new_build_transmission_vintage [2020, 2021] 2020 3 ≠
      spec_operational_window [2020, 2021]
        (fun p => if p = 2021 then 2025 else p) 2020 3 := by
  have h1 : operational_periods_by_new_build_transmission_vintage
      [2020, 2021] 2020 3 = [2020, 2021] := by
    norm_num [operational_periods_by_new_build_transmission_vintage,
      List.filter_cons, List.filter_nil]
  have h2 : spec_operational_window [2020, 2021]
      (fun p => if p = 2021 then 2025 else p) 2020 3 = [2020] := by
    norm_num [spec_operational_window, List.filter_cons, List.filter_nil]
  rw [h1, h2]
  simp

/-- C1 (amended): for every period collection, vintage and lifetime, the
resolved operational window is exactly the periods `p` with
`v ≤ p < v + L`, comparing period labels (the code treats a period label as
its start year); the boundary period with label exactly `v + L` is excluded,
and for `L = 0` the window is empty. -/
theorem mass_new_lin_window_correct (PERIODS : List ℚ) (v L : ℚ) :
    (∀ p : ℚ,
      p ∈ operational_periods_by_new_build_transmission_vintage PERIODS v L ↔
        (p ∈ PERIODS ∧ v ≤ p ∧ p < v + L))
    ∧ operational_periods_by_new_build_transmission_vintage PERIODS v 0 = [] := by
  constructor
  · intro p
    simp [operational_periods_by_new_build_transmission_vintage, List.mem_filter]
  · apply List.filter_eq_nil_iff.mpr
    intro p _
    simp only [decide_eq_true_eq, not_and, not_lt]
    intro h
    linarith

/-- C7: for a fixed period collection and vintage, the resolved operational
window is monotonic in the lifetime: a window for a smaller lifetime is a
subset of the window for a larger one. -/
theorem mass_new_lin_window_monotone_in_lifetime
    (PERIODS : List ℚ) (v L1 L2 : ℚ) (h : L1 ≤ L2) :
    operational_periods_by_new_build_transmission_vintage PERIODS v L1 ⊆
      operational_periods_by_new_build_transmission_vintage PERIODS v L2 := by
  intro p hp
  simp only [operational_periods_by_new_build_transmission_vintage,
    List.mem_filter, decide_eq_true_eq] at hp ⊢
  exact ⟨hp.1, hp.2.1, lt_of_lt_of_le hp.2.2 (by linarith)⟩

/-- Witness for C7 at lifetimes 3 and 7. -/
theorem mass_new_lin_window_monotone_in_lifetime_witness :
    (3 : ℚ) ≤ 7 ∧
      operational_periods_by_new_build_transmission_vintage [2020, 2025, 2030] 2020 3 ⊆
        operational_periods_by_new_build_transmission_vintage [2020, 2025, 2030] 2020 7 :=
  ⟨by norm_num,
    mass_new_lin_window_monotone_in_lifetime [2020, 2025, 2030] 2020 3 7 (by norm_num)⟩

/-- C8: the union building `MASS_NEW_LIN_OPR_PRDS` from the per-vintage
contributions is a set (duplicate-free), is invariant under permuting the
registered vintages, and for two non-overlapping contributions of the same
project its size is the sum of the two contribution sizes. -/
theorem mass_new_lin_opr_prds_union_properties
    (PERIODS : List ℚ) (lt : Project → ℚ → ℚ) :
    (∀ l1 l2 : List (Project × ℚ), l1.Perm l2 →
      new_build_transmission_operational_periods PERIODS lt l1 =
        new_build_transmission_operational_periods PERIODS lt l2)
    ∧ (∀ (g : Project) (v1 v2 : ℚ),
        Disjoint (vintage_contribution PERIODS lt g v1)
          (vintage_contribution PERIODS lt g v2) →
        (new_build_transmission_operational_periods PERIODS lt [(g, v1), (g, v2)]).card =
          (vintage_contribution PERIODS lt g v1).card +
            (vintage_contribution PERIODS lt g v2).card)
    ∧ (∀ l : List (Project × ℚ),
        (new_build_transmission_operational_periods PERIODS lt l).val.Nodup) := by
  refine ⟨?_, ?_, ?_⟩
  · intro l1 l2 hperm
    ext x
    simp only [new_build_transmission_operational_periods, List.mem_toFinset,
      List.mem_flatMap]
    constructor
    · rintro ⟨gv, hgv, hx⟩
      exact ⟨gv, hperm.mem_iff.mp hgv, hx⟩
    · rintro ⟨gv, hgv, hx⟩
      exact ⟨gv, hperm.mem_iff.mpr hgv, hx⟩
  · intro g v1 v2 hdisj
    have hsplit : new_build_transmission_operational_periods PERIODS lt [(g, v1), (g, v2)] =
        vintage_contribution PERIODS lt g v1 ∪ vintage_contribution PERIODS lt g v2 := by
      ext x
      simp only [new_build_transmission_operational_periods, vintage_contribution,
        List.mem_toFinset, List.mem_flatMap, Finset.mem_union, List.mem_cons,
        List.not_mem_nil, or_false]
      constructor
      · rintro ⟨gv, hgv | hgv, hx⟩ <;> subst hgv
        · exact Or.inl hx
        · exact Or.inr hx
      · rintro (hx | hx)
        · exact ⟨(g, v1), Or.inl rfl, hx⟩
        · exact ⟨(g, v2), Or.inr rfl, hx⟩
    rw [hsplit, Finset.card_union_of_disjoint hdisj]
  · intro l
    exact (new_build_transmission_operational_periods PERIODS lt l).nodup

/-- Witness for C8: vintages 2020 and 2030 of project A with lifetime 5 have
disjoint windows inside periods 2020 and 2030, the union has size 1 + 1, and
swapping the registration order leaves the union unchanged. -/
theorem mass_new_lin_opr_prds_union_properties_witness :
    (new_build_transmission_operational_periods [2020, 2030] (fun _ _ => 5)
        [("A", 2020), ("A", 2030)] =
      new_build_transmission_operational_periods [2020, 2030] (fun _ _ => 5)
        [("A", 2030), ("A", 2020)])
    ∧ (new_build_transmission_operational_periods [2020, 2030] (fun _ _ => 5)
        [("A", 2020), ("A", 2030)]).card =
        (vintage_contribution [2020, 2030] (fun _ _ => 5) "A" 2020).card +
          (vintage_contribution [2020, 2030] (fun _ _ => 5) "A" 2030).card := by
  constructor
  · exact (mass_new_lin_opr_prds_union_properties [2020, 2030] (fun _ _ => 5)).1
      [("A", 2020), ("A", 2030)] [("A", 2030), ("A", 2020)]
      (List.Perm.swap ("A", 2030) ("A", 2020) [])
  · apply (mass_new_lin_opr_prds_union_properties [2020, 2030] (fun _ _ => 5)).2.1
    rw [Finset.disjoint_left]
    intro x hx1 hx2
    have e1 : vintage_contribution [2020, 2030] (fun _ _ => 5) "A" 2020 =
        ([("A", (2020 : ℚ))] : List (Project × ℚ)).toFinset := by
      norm_num [vintage_contribution,
        operational_periods_by_new_build_transmission_vintage,
        List.filter_cons, List.filter_nil]
    have e2 : vintage_contribution [2020, 2030] (fun _ _ => 5) "A" 2030 =
        ([("A", (2030 : ℚ))] : List (Project × ℚ)).toFinset := by
      norm_num [vintage_contribution,
        operational_periods_by_new_build_transmission_vintage,
        List.filter_cons, List.filter_nil]
    rw [e1] at hx1
    rw [e2] at hx2
    simp only [List.toFinset_cons, List.toFinset_nil, insert_emptyc_eq,
      Finset.mem_singleton] at hx1 hx2
    rw [hx1] at hx2
    have := (Prod.mk.injEq _ _ _ _).mp hx2
    norm_num at this

end MassNewLin

namespace CapacityTypes

/-- C4: the name that gen_ccs_new appends to
`capacity_type_operational_period_sets` is `GEN_CCS_NEW_VNTS`, which on the
model denotes the (project, vintage) build-decision set and not either of the
operational-period relations of the module: on the sample model the
registered set is the single pair (GenCCS1, 2020) while both
operational-period relations also contain (GenCCS1, 2030). -/
theorem gen_ccs_new_registers_build_decision_set :
    gen_ccs_new_register [] = ["GEN_CCS_NEW_VNTS"]
    ∧ gen_ccs_new_set_denotation genCcsNewSample gen_ccs_new_registered_set_name =
        genCcsNewSample.GEN_CCS_NEW_VNTS.toFinset
    ∧ gen_ccs_new_set_denotation genCcsNewSample gen_ccs_new_registered_set_name ≠
        gen_ccs_new_gen_operational_periods genCcsNewSample
    ∧ gen_ccs_new_set_denotation genCcsNewSample gen_ccs_new_registered_set_name ≠
        gen_ccs_new_ccs_operational_periods genCcsNewSample := by
  have egen : gen_ccs_new_gen_operational_periods genCcsNewSample =
      ([("GenCCS1", (2020 : ℚ)), ("GenCCS1", 2030)] : List (Project × ℚ)).toFinset := by
    norm_num [gen_ccs_new_gen_operational_periods, project_operational_periods,
      operational_periods_by_gen_vintage, operational_periods_by_project_vintage,
      genCcsNewSample, List.filter_cons, List.filter_nil]
  have eccs : gen_ccs_new_ccs_operational_periods genCcsNewSample =
      ([("GenCCS1", (2020 : ℚ)), ("GenCCS1", 2030)] : List (Project × ℚ)).toFinset := by
    norm_num [gen_ccs_new_ccs_operational_periods, project_operational_periods,
      operational_periods_by_ccs_vintage, operational_periods_by_project_vintage,
      genCcsNewSample, List.filter_cons, List.filter_nil]
  have ednt : gen_ccs_new_set_denotation genCcsNewSample gen_ccs_new_registered_set_name =
      ([("GenCCS1", (2020 : ℚ))] : List (Project × ℚ)).toFinset := rfl
  refine ⟨rfl, rfl, ?_, ?_⟩
  · rw [ednt, egen]
    intro h
    have := Finset.ext_iff.mp h ("GenCCS1", (2030 : ℚ))
    simp only [List.toFinset_cons, List.toFinset_nil, insert_emptyc_eq,
      Finset.mem_singleton, Finset.mem_insert, Prod.mk.injEq] at this
    norm_num at this
  · rw [ednt, eccs]
    intro h
    have := Finset.ext_iff.mp h ("GenCCS1", (2030 : ℚ))
    simp only [List.toFinset_cons, List.toFinset_nil, insert_emptyc_eq,
      Finset.mem_singleton, Finset.mem_insert, Prod.mk.injEq] at this
    norm_num at this

/-- C3: if the same (project, period) pair is claimed by two registered
capacity-type contributions, the aggregation fails with a build-time error
carrying an offending pair (one genuinely claimed by both contributions);
the duplicate is never silently resolved into the union. -/
theorem capacity_aggregator_duplicate_fatal
    (c1 c2 : List (Project × ℚ)) (pp : Project × ℚ)
    (h1 : pp ∈ c1) (h2 : pp ∈ c2) :
    ∃ qq : Project × ℚ, (qq ∈ c1 ∧ qq ∈ c2) ∧
      aggregate_operational_period_sets [c1, c2] = Except.error qq := by
  cases hfind : c1.find? (fun x => [c2].any (fun c => decide (x ∈ c))) with
  | none =>
    exfalso
    have hnone := List.find?_eq_none.mp hfind pp h1
    simp only [List.any_cons, List.any_nil, Bool.or_false, decide_eq_true_eq] at hnone
    exact hnone h2
  | some qq =>
    have hq1 : qq ∈ c1 := List.mem_of_find?_eq_some hfind
    have hq2 := List.find?_some hfind
    simp only [List.any_cons, List.any_nil, Bool.or_false, decide_eq_true_eq] at hq2
    refine ⟨qq, ⟨hq1, hq2⟩, ?_⟩
    unfold aggregate_operational_period_sets
    have hdup : find_cross_duplicate [c1, c2] = some qq := by
      unfold find_cross_duplicate
      rw [hfind]
    rw [hdup]

/-- Witness for C3: two contributions both claiming (ProjectX, 2030). -/
theorem capacity_aggregator_duplicate_fatal_witness :
    ∃ qq : Project × ℚ,
      (qq ∈ [(("ProjectX" : Project), (2030 : ℚ))] ∧
        qq ∈ [(("ProjectX" : Project), (2030 : ℚ))]) ∧
      aggregate_operational_period_sets
          [[("ProjectX", 2030)], [("ProjectX", 2030)]] = Except.error qq :=
  capacity_aggregator_duplicate_fatal _ _ ("ProjectX", 2030) (by simp) (by simp)

end CapacityTypes

namespace DrNew

/-- C10: the dr_new energy capacity in a period is the cumulative sum of the
build variable over all periods up to and including it: the capacity at a
later period is the capacity at an earlier one plus the builds in between,
hence (builds being non-negative) capacity never decreases and never retires,
and every (project, period) pair of the full product is operational, with no
lifetime filter anywhere. -/
theorem dr_new_capacity_cumulative_never_retires (mod : Model) (g g2 : Project)
    (p1 p2 p : ℚ)
    (hbuild : ∀ q : ℚ, 0 ≤ mod.DRNew_Build_MWh g q) (h12 : p1 ≤ p2)
    (hg2 : g2 ∈ mod.DR_NEW) (hp : p ∈ mod.PERIODS) :
    dr_new_energy_capacity_rule mod g p2 =
        dr_new_energy_capacity_rule mod g p1 +
          Finset.sum (mod.PERIODS.filter (fun q => p1 < q ∧ q ≤ p2))
            (mod.DRNew_Build_MWh g)
    ∧ dr_new_energy_capacity_rule mod g p1 ≤ dr_new_energy_capacity_rule mod g p2
    ∧ (g2, p) ∈ DR_NEW_OPR_PRDS mod := by
  have hsplit : mod.PERIODS.filter (fun q => q ≤ p2) =
      mod.PERIODS.filter (fun q => q ≤ p1) ∪
        mod.PERIODS.filter (fun q => p1 < q ∧ q ≤ p2) := by
    ext q
    simp only [Finset.mem_filter, Finset.mem_union]
    constructor
    · rintro ⟨hq, hle⟩
      rcases le_or_lt q p1 with h | h
      · exact Or.inl ⟨hq, h⟩
      · exact Or.inr ⟨hq, h, hle⟩
    · rintro (⟨hq, h⟩ | ⟨hq, h, hle⟩)
      · exact ⟨hq, le_trans h h12⟩
      · exact ⟨hq, hle⟩
  have hdisj : Disjoint (mod.PERIODS.filter (fun q => q ≤ p1))
      (mod.PERIODS.filter (fun q => p1 < q ∧ q ≤ p2)) := by
    rw [Finset.disjoint_left]
    intro q hq1 hq2
    simp only [Finset.mem_filter] at hq1 hq2
    exact absurd hq1.2 (not_le.mpr hq2.2.1)
  have hcum : dr_new_energy_capacity_rule mod g p2 =
      dr_new_energy_capacity_rule mod g p1 +
        Finset.sum (mod.PERIODS.filter (fun q => p1 < q ∧ q ≤ p2))
          (mod.DRNew_Build_MWh g) := by
    rw [dr_new_energy_capacity_rule, dr_new_energy_capacity_rule, hsplit,
      Finset.sum_union hdisj]
  refine ⟨hcum, ?_, ?_⟩
  · rw [hcum]
    exact le_add_of_nonneg_right (Finset.sum_nonneg (fun q _ => hbuild q))
  · simp only [DR_NEW_OPR_PRDS, Finset.mem_product]
    exact ⟨hg2, hp⟩

/-- Witness for C10 on the sample model between periods 2020 and 2030. -/
theorem dr_new_capacity_cumulative_never_retires_witness :
    dr_new_energy_capacity_rule drNewSample "DR1" 2030 =
        dr_new_energy_capacity_rule drNewSample "DR1" 2020 +
          Finset.sum (drNewSample.PERIODS.filter (fun q => 2020 < q ∧ q ≤ 2030))
            (drNewSample.DRNew_Build_MWh "DR1")
    ∧ dr_new_energy_capacity_rule drNewSample "DR1" 2020 ≤
        dr_new_energy_capacity_rule drNewSample "DR1" 2030
    ∧ ("DR1", (2020 : ℚ)) ∈ DR_NEW_OPR_PRDS drNewSample :=
  dr_new_capacity_cumulative_never_retires drNewSample "DR1" "DR1" 2020 2030 2020
    (fun _ => by norm_num [drNewSample]) (by norm_num)
    (by simp [drNewSample]) (by simp [drNewSample])

end DrNew

namespace StorH2

/-- C2: at the first timepoint of a linear-boundary segment the tracking rule
is skipped; at the first timepoint of a linked-boundary segment the linked
branch of `H2_tracking_rule` reads the persisted linked params but then
evaluates the local `prev_tmp_weight`, which that branch never assigns, so
rule evaluation raises `UnboundLocalError` instead of building the
linked-state constraint; at a non-first timepoint the constraint references
the previous-timepoint decision variables of the current subproblem. -/
theorem stor_H2_tracking_linked_branch_unbound_local :
    H2_tracking_rule linkedFirstTmpModel "Stor1" 1 =
        Except.error (PyErr.unboundLocal "prev_tmp_weight")
    ∧ H2_tracking_rule linearFirstTmpModel "Stor1" 1 = Except.ok none
    ∧ H2_tracking_rule linkedFirstTmpModel "Stor1" 2 =
        Except.ok (some
          { s := "Stor1"
            tmp := 2
            prev_starting := PrevRef.starting_var "Stor1" 1
            prev_discharge := PrevRef.discharge_var "Stor1" 1
            prev_charge := PrevRef.charge_var "Stor1" 1
            prev_hrs_in_tmp := 1
            prev_weight := 1 }) :=
  ⟨rfl, rfl, rfl⟩

/-- C6 (counterexample): with the linked-timepoint file absent, data loading
succeeds, but the continuity constraint at a linked-boundary first timepoint
(the constraint that would have consumed the linked values) is not skipped:
rule evaluation fails on the missing param instead of yielding
`Constraint.Skip`. -/
theorem stor_H2_absent_file_constraint_not_skipped :
    load_model_data emptyInputs absentLinkedDataModel = absentLinkedDataModel
    ∧ H2_tracking_rule (load_model_data emptyInputs absentLinkedDataModel) "Stor1" 1 =
        Except.error (PyErr.missingParam "stor_linked_starting_H2_in_storage")
    ∧ H2_tracking_rule (load_model_data emptyInputs absentLinkedDataModel) "Stor1" 1 ≠
        Except.ok none := by
  have he : H2_tracking_rule (load_model_data emptyInputs absentLinkedDataModel) "Stor1" 1 =
      Except.error (PyErr.missingParam "stor_linked_starting_H2_in_storage") := rfl
  refine ⟨rfl, he, ?_⟩
  rw [he]
  exact fun h => Except.noConfusion h

/-- C6 (amended): if the stor_H2 linked-timepoint file is absent from the
inputs directory, model data loading succeeds (the load is skipped and the
model is unchanged), and continuity constraints at first timepoints of
linear-boundary segments are skipped; skipping is decided by the boundary
type, not by the presence of the file. -/
theorem stor_H2_absent_linked_file_graceful
    (inputs : String → Option (List LinkedRow)) (mod : Model)
    (s : Project) (tmp : ℤ)
    (habsent : inputs stor_H2_linked_inputs_filename = none)
    (hfirst : mod.is_first_tmp tmp (mod.balancing_type_project s) = true)
    (hlin : mod.boundary_type_of tmp (mod.balancing_type_project s) = "linear") :
    load_model_data inputs mod = mod
    ∧ H2_tracking_rule (load_model_data inputs mod) s tmp = Except.ok none := by
  have h1 : load_model_data inputs mod = mod := by
    unfold load_model_data
    rw [habsent]
  refine ⟨h1, ?_⟩
  rw [h1]
  unfold H2_tracking_rule
  simp [hfirst, hlin]

/-- Witness for C6 (amended) on the linear-boundary fixture with an empty
inputs directory. -/
theorem stor_H2_absent_linked_file_graceful_witness :
    load_model_data emptyInputs linearFirstTmpModel = linearFirstTmpModel
    ∧ H2_tracking_rule (load_model_data emptyInputs linearFirstTmpModel) "Stor1" 1 =
        Except.ok none :=
  stor_H2_absent_linked_file_graceful emptyInputs linearFirstTmpModel "Stor1" 1
    rfl rfl rfl

/-- C9: with an empty timepoints-to-link list no linked file is written; with
a non-empty list the export writes a file named
`gen_H2_linked_timepoint_params.tab` whose rows come from the gen_H2
variables and carry two value columns — while the stor_H2 load step of the
next subproblem reads `stor_H2_linked_timepoint_params.tab` and three
params — so the written artifact is not the artifact the next subproblem
reads, neither by file name nor by parameters. -/
theorem stor_H2_export_wrong_linked_artifact :
    export_linked_timepoint_params sampleExportEnv [] (fun t => t - 24) = none
    ∧ (export_linked_timepoint_params sampleExportEnv [24] (fun t => t - 24)).map
        WrittenFile.name = some "gen_H2_linked_timepoint_params.tab"
    ∧ (export_linked_timepoint_params sampleExportEnv [24] (fun t => t - 24)).map
        WrittenFile.header =
        some ["project", "linked_timepoint", "linked_charge", "linked_H2"]
    ∧ (export_linked_timepoint_params sampleExportEnv [24] (fun t => t - 24)).map
        (fun f => f.rows.map (fun r => (r.1, r.2.1))) = some [("Stor1", 0)]
    ∧ "gen_H2_linked_timepoint_params.tab" ≠ stor_H2_linked_inputs_filename
    ∧ (["linked_charge", "linked_H2"] : List String).length ≠
        stor_H2_linked_loaded_params.length := by
  refine ⟨rfl, rfl, rfl, rfl, ?_, by decide⟩
  intro h
  exact absurd (congrArg String.length h) (by decide)

end StorH2

namespace CcsBalance

/-- C5: the dynamic-components step of ccs_balance registers the unserved-CCS
penalty expression as a production component and the over-CCS penalty
expression as a consumption component before the constraint is constructed,
and the constraint built for a zone and timepoint holds exactly when the sum
of all registered production expressions equals the sum of all registered
consumption expressions (the previously registered components plus the two
penalty expressions). -/
theorem ccs_balance_constraint_sums (Z T : Type) (m : Model Z T)
    (d : DynamicComponents) (z : Z) (tmp : T) :
    "Unserved_CCS_Expression" ∈
        (add_model_components m d).1.ccs_balance_production_components
    ∧ "Over_CCS_Expression" ∈
        (add_model_components m d).1.ccs_balance_consumption_components
    ∧ ((add_model_components m d).2 z tmp ↔
        (d.ccs_balance_production_components.map (fun c => resolve m c z tmp)).sum
            + m.allow_unserved_ccs z * m.Unserved_CCS z tmp
          = (d.ccs_balance_consumption_components.map (fun c => resolve m c z tmp)).sum
            + m.allow_over_ccs z * m.Over_CCS z tmp) := by
  refine ⟨?_, ?_, ?_⟩
  · simp [add_model_components, record_dynamic_components]
  · simp [add_model_components, record_dynamic_components]
  · simp [add_model_components, meet_ccs_rule, record_dynamic_components,
      List.map_append, List.sum_append, resolve, Unserved_CCS_Expression,
      Over_CCS_Expression]

end CcsBalance

end GridPath
